import Mathlib

/-!
Shallow embedding of juju/postgrestest (src/postgrestest.go).

The Go package manages an ephemeral Postgres test schema: New allocates a
random schema name, opens a connection, creates the schema under a timeout
wrapper; Close drops the schema and closes the connection, each under the
same wrapper, with an environment-driven retention override.

External effects are modelled as oracle values passed in:
- environment variables are string parameters read at the call sites that
  read them in the source;
- crypto/rand.Read is a function from the requested byte count to either
  the bytes read or an error;
- each database operation run inside a runWithTimeout closure is a
  WorkTiming value: the wall-clock duration (nanoseconds) after which the
  closure body finishes together with the underlying operation result, or
  .never if it blocks forever.
Results record, besides the Go return values, the SQL statements the call
sent to the server and the lines it printed to stderr, so that claims
about issued DDL and diagnostics are statable.
-/

namespace Postgrestest

/-- Errors as built by the errgo package in the source: an underlying
error from an external call (base), errgo.Newf (newf), and
errgo.Notef wrapping a cause with a context message (notef). -/
inductive GoError where
  | base (msg : String)
  | newf (msg : String)
  | notef (cause : GoError) (msg : String)
deriving DecidableEq, Repr

/-- Whether a message occurs somewhere in the error chain (the error
itself or any wrapped cause). Used to state which underlying failure a
returned error reports. -/
def GoError.mentions : GoError → String → Bool
  | .base m, s => m = s
  | .newf m, s => m = s
  | .notef c m, s => m = s || c.mentions s

/-- A Go panic (process abort), distinct from a returned error value. -/
structure GoPanic where
  msg : String
deriving DecidableEq, Repr

/-- The behaviour of a closure handed to runWithTimeout: either its body
finishes after d nanoseconds with underlying result v (and then sends on
the done channel), or it blocks forever. -/
inductive WorkTiming (α : Type) where
  | after (d : Nat) (v : α)
  | never
deriving DecidableEq, Repr

/-- defaultTimeout = 5 * time.Second, in nanoseconds (Go durations are
nanosecond counts). -/
def defaultTimeout : Nat := 5 * 1000000000

/-- runWithTimeout from the source: spawn toRun in a goroutine and race
the done channel against time.After(timeout). The closure is split into
its oracle timing and the pure function send from the underlying
operation result to the value the closure sends on the channel. If the
send arrives before the timer (d < timeout), a nil result is returned as
nil and a non-nil error e as errgo.Notef(e, "cannot " + what); otherwise
the timer wins and errgo.Newf("timed out trying to " + what) is
returned. -/
def runWithTimeout {α : Type} (timing : WorkTiming α) (send : α → Option GoError)
    (timeout : Nat) (what : String) : Option GoError :=
  match timing with
  | .after d v =>
      if d < timeout then
        match send v with
        | none => none
        | some e => some (.notef e ("cannot " ++ what))
      else
        some (.newf ("timed out trying to " ++ what))
  | .never => some (.newf ("timed out trying to " ++ what))

/-- Lowercase hexadecimal digit for a nibble, as produced by fmt %x. -/
def hexDigit (n : Nat) : Char :=
  if n < 10 then Char.ofNat (48 + n) else Char.ofNat (87 + n)

/-- The character list of fmt.Sprintf %x applied to a byte slice: two
lowercase hex digits per byte, high nibble first. -/
def hexChars : List Nat → List Char
  | [] => []
  | b :: bs => hexDigit (b / 16) :: hexDigit (b % 16) :: hexChars bs

/-- fmt.Sprintf %x of a byte slice as a string. -/
def hexBytes (bs : List Nat) : String :=
  String.mk (hexChars bs)

/-- Whether a character is a lowercase hexadecimal digit. -/
def isLowerHexDigit (c : Char) : Bool :=
  ("0123456789abcdef".toList).contains c

/-- randomSchemaName from the source: read 8 bytes from crypto/rand
(the oracle randRead, applied to the buffer length 8); on a read error,
panic with fmt.Errorf("cannot read random bytes: %v", err); otherwise
return fmt.Sprintf("go_test_%x", buf). -/
def randomSchemaName (randRead : Nat → Except String (List Nat)) :
    Except GoPanic String :=
  match randRead 8 with
  | .error e => .error ⟨"cannot read random bytes: " ++ e⟩
  | .ok buf => .ok ("go_test_" ++ hexBytes buf)

/-- PgTestDisable from the source: whether the PGTESTDISABLE environment
variable (passed as the parameter) is non-empty. -/
def PgTestDisable (envPGTESTDISABLE : String) : Bool :=
  envPGTESTDISABLE != ""

/-- ErrDisabled = errgo.New("postgres testing is disabled"). -/
def ErrDisabled : GoError := .newf "postgres testing is disabled"

/-- The DB struct: the embedded *sql.DB pointer (none models a nil
pointer; some carries the data source string passed to sql.Open) and the
schema name. -/
structure DB where
  conn : Option String
  schema : String
deriving DecidableEq, Repr

/-- Schema from the source: returns pg.schema. -/
def DB.Schema (pg : DB) : String :=
  pg.schema

/-- Go %q applied to a string without characters needing escapes: the
string surrounded by double quotes. All strings it is applied to here
are schema names. -/
def goQuote (s : String) : String :=
  "\"" ++ s ++ "\""

/-- Oracle for one call to New: the sql.Open result, the timing and
error of db.Exec(CREATE SCHEMA ...) inside the first wrapper closure,
and the timing and error of db.Close() inside the cleanup closure. -/
structure NewWorld where
  openErr : Option GoError
  createTiming : WorkTiming (Option GoError)
  closeTiming : WorkTiming (Option GoError)
deriving Repr

/-- Result of a call to New: the two Go return values, plus the SQL
statements sent to the server via Exec and whether db.Close was
invoked. -/
structure NewRet where
  db : Option DB
  err : Option GoError
  stmts : List String
  closeCalled : Bool
deriving DecidableEq, Repr

/-- New from the source. Returns Except.error on panic (entropy
failure), otherwise the pair of Go return values with the effect log.
Note the cleanup closure in the source runs db.Close() but sends the
outer creation error err on the done channel (done <- err), discarding
the result of db.Close(); the send function below is faithful to
that. -/
def New (envPGTESTDISABLE : String) (randRead : Nat → Except String (List Nat))
    (w : NewWorld) : Except GoPanic NewRet :=
  if PgTestDisable envPGTESTDISABLE then
    .ok ⟨none, some ErrDisabled, [], false⟩
  else
    match randomSchemaName randRead with
    | .error p => .error p
    | .ok name =>
      match w.openErr with
      | some e => .ok ⟨none, some (.notef e "cannot open database"), [], false⟩
      | none =>
        match runWithTimeout w.createTiming (fun execErr => execErr)
            defaultTimeout "create schema" with
        | none =>
            .ok ⟨some ⟨some ("search_path=" ++ name), name⟩, none,
              ["CREATE SCHEMA " ++ name], false⟩
        | some err =>
            match runWithTimeout w.closeTiming (fun _closeRes => some err)
                defaultTimeout "close test db after failing to create schema" with
            | some errClose =>
                .ok ⟨none, some (.notef errClose
                  ("cannot create test database " ++ goQuote name)),
                  ["CREATE SCHEMA " ++ name], true⟩
            | none =>
                .ok ⟨none, some (.notef err
                  ("cannot create test database " ++ goQuote name)),
                  ["CREATE SCHEMA " ++ name], true⟩

/-- Oracle for one call to Close: the PGTESTKEEPDB environment variable
read at call time, the timing and error of pg.DB.Exec(DROP SCHEMA ...),
and the timing and error of pg.DB.Close(). -/
structure CloseWorld where
  envPGTESTKEEPDB : String
  dropTiming : WorkTiming (Option GoError)
  closeTiming : WorkTiming (Option GoError)
deriving Repr

/-- Result of a call to Close: the receiver state after the call (the
source never reassigns any field, so it always equals the input), the
returned error, the SQL statements sent via Exec, the lines printed to
stderr, and whether pg.DB.Close was invoked. -/
structure CloseRet where
  db : DB
  err : Option GoError
  stmts : List String
  stderr : List String
  closeCalled : Bool
deriving DecidableEq, Repr

/-- Close from the source: nil-pointer guard, PGTESTKEEPDB retention
path printing three lines to stderr, then the drop wrapper and the
close wrapper. -/
def DB.Close (pg : DB) (w : CloseWorld) : CloseRet :=
  match pg.conn with
  | none => ⟨pg, none, [], [], false⟩
  | some _ =>
    if w.envPGTESTKEEPDB != "" then
      ⟨pg, none, [],
        ["postgrestest schema: " ++ pg.schema,
         "\tSET search_path TO " ++ goQuote pg.schema ++ ";",
         "\tDROP SCHEMA " ++ goQuote pg.schema ++ " CASCADE;"], false⟩
    else
      let dropStmt := "DROP SCHEMA " ++ goQuote pg.schema ++ " CASCADE;"
      match runWithTimeout w.dropTiming (fun execErr => execErr)
          defaultTimeout ("drop test schema " ++ pg.schema) with
      | some err => ⟨pg, some err, [dropStmt], [], false⟩
      | none =>
        match runWithTimeout w.closeTiming (fun closeErr => closeErr)
            defaultTimeout "close test db" with
        | some err => ⟨pg, some err, [dropStmt], [], true⟩
        | none => ⟨pg, none, [dropStmt], [], true⟩

/-- The statements a call to New sent to the server (empty when the call
panicked). -/
def newStmts (env : String) (randRead : Nat → Except String (List Nat))
    (w : NewWorld) : List String :=
  match New env randRead w with
  | .ok r => r.stmts
  | .error _ => []

/-- Whether the error returned by a call to New mentions msg anywhere in
its cause chain (false when New succeeded or panicked). -/
def newErrMentions (env : String) (randRead : Nat → Except String (List Nat))
    (w : NewWorld) (msg : String) : Bool :=
  match New env randRead w with
  | .ok r =>
      match r.err with
      | some e => e.mentions msg
      | none => false
  | .error _ => false

lemma hexChars_length (bs : List Nat) : (hexChars bs).length = 2 * bs.length := by
  induction bs with
  | nil => rfl
  | cons b bs ih => simp [hexChars, ih]; ring

lemma hexDigit_lower (n : Nat) (h : n < 16) : isLowerHexDigit (hexDigit n) = true := by
  have hall : ∀ m, m < 16 → isLowerHexDigit (hexDigit m) = true := by decide
  exact hall n h

lemma hexChars_lower (bs : List Nat) (hb : ∀ b ∈ bs, b < 256) :
    ∀ c ∈ hexChars bs, isLowerHexDigit c = true := by
  induction bs with
  | nil => simp [hexChars]
  | cons b bs ih =>
    intro c hc
    have hb0 : b < 256 := hb b (List.mem_cons_self b bs)
    simp only [hexChars, List.mem_cons] at hc
    rcases hc with h | h | h
    · subst h; exact hexDigit_lower _ (by omega)
    · subst h; exact hexDigit_lower _ (by omega)
    · exact ih (fun x hx => hb x (List.mem_cons_of_mem b hx)) c h

/-- Claim C3: the bounded-execution wrapper propagates a nil result as
success when the work signals completion before the timer; wraps a
non-nil error with the context "cannot " plus the description; returns
the distinct error "timed out trying to " plus the description when the
timer elapses first (whether the work finishes late or never); and the
timeout New and Close pass to it, defaultTimeout, is 5 seconds. -/
theorem runWithTimeout_spec :
    defaultTimeout = 5 * 1000000000 ∧
    (∀ (α : Type) (d : Nat) (v : α) (send : α → Option GoError)
        (timeout : Nat) (what : String), d < timeout → send v = none →
        runWithTimeout (.after d v) send timeout what = none) ∧
    (∀ (α : Type) (d : Nat) (v : α) (send : α → Option GoError) (e : GoError)
        (timeout : Nat) (what : String), d < timeout → send v = some e →
        runWithTimeout (.after d v) send timeout what =
          some (.notef e ("cannot " ++ what))) ∧
    (∀ (α : Type) (d : Nat) (v : α) (send : α → Option GoError)
        (timeout : Nat) (what : String), ¬ d < timeout →
        runWithTimeout (.after d v) send timeout what =
          some (.newf ("timed out trying to " ++ what))) ∧
    (∀ (α : Type) (send : α → Option GoError) (timeout : Nat) (what : String),
        runWithTimeout .never send timeout what =
          some (.newf ("timed out trying to " ++ what))) ∧
    (∀ (e : GoError) (s t : String), GoError.newf s ≠ GoError.notef e t) := by
  refine ⟨rfl, ?_, ?_, ?_, ?_, ?_⟩
  · intro α d v send timeout what hd hs
    simp [runWithTimeout, hd, hs]
  · intro α d v send e timeout what hd hs
    simp [runWithTimeout, hd, hs]
  · intro α d v send timeout what hd
    simp [runWithTimeout, hd]
  · intro α send timeout what
    simp [runWithTimeout]
  · intro e s t h
    exact GoError.noConfusion h

/-- Witness for claim C3 at concrete inputs: a work item completing
immediately with an error inside the create-schema call site. -/
theorem runWithTimeout_spec_witness :
    runWithTimeout (.after 0 (some (GoError.base "boom"))) (fun e => e)
      defaultTimeout "create schema" =
      some (.notef (.base "boom") "cannot create schema") :=
  runWithTimeout_spec.2.2.1 (Option GoError) 0 (some (.base "boom"))
    (fun e => e) (.base "boom") defaultTimeout "create schema" (by decide) rfl

/-- Claim C8: the name allocator asks the random source for 8 bytes and
returns the fixed literal prefix go_test_ followed by the lowercase
hexadecimal encoding of those bytes, which is exactly 16 characters
drawn from 0-9 and a-f. -/
theorem randomSchemaName_spec (randRead : Nat → Except String (List Nat))
    (bytes : List Nat) (hok : randRead 8 = .ok bytes)
    (hlen : bytes.length = 8) (hb : ∀ b ∈ bytes, b < 256) :
    randomSchemaName randRead = .ok ("go_test_" ++ hexBytes bytes) ∧
    (hexBytes bytes).length = 16 ∧
    (∀ c ∈ (hexBytes bytes).toList, isLowerHexDigit c = true) := by
  refine ⟨?_, ?_, ?_⟩
  · simp [randomSchemaName, hok]
  · show (String.mk (hexChars bytes)).length = 16
    simp [String.length, hexChars_length, hlen]
  · intro c hc
    exact hexChars_lower bytes hb c hc

/-- Witness for claim C8 at a concrete byte vector. -/
theorem randomSchemaName_spec_witness :
    randomSchemaName (fun _ => .ok [0, 1, 2, 3, 252, 253, 254, 255]) =
      .ok "go_test_00010203fcfdfeff" ∧
    (hexBytes [0, 1, 2, 3, 252, 253, 254, 255]).length = 16 := by
  have h := randomSchemaName_spec (fun _ => .ok [0, 1, 2, 3, 252, 253, 254, 255])
    [0, 1, 2, 3, 252, 253, 254, 255] rfl rfl (by decide)
  exact ⟨by rw [h.1]; rfl, h.2.1⟩

/-- Claim C9: when the random source fails, the allocator panics with
the message "cannot read random bytes: " plus the source error, and New
propagates the panic instead of returning an error value. -/
theorem entropy_failure_panics (env : String)
    (randRead : Nat → Except String (List Nat)) (msg : String) (w : NewWorld)
    (hfail : randRead 8 = .error msg) (hen : PgTestDisable env = false) :
    randomSchemaName randRead = .error ⟨"cannot read random bytes: " ++ msg⟩ ∧
    New env randRead w = .error ⟨"cannot read random bytes: " ++ msg⟩ := by
  constructor
  · simp [randomSchemaName, hfail]
  · simp [New, hen, randomSchemaName, hfail]

/-- Witness for claim C9 at a concrete failing random source. -/
theorem entropy_failure_panics_witness :
    New "" (fun _ => .error "eof") ⟨none, .after 0 none, .after 0 none⟩ =
      .error ⟨"cannot read random bytes: eof"⟩ :=
  (entropy_failure_panics "" (fun _ => .error "eof") "eof"
    ⟨none, .after 0 none, .after 0 none⟩ rfl rfl).2

/-- Claim C7: with a non-empty disable variable, New returns a nil
handle and the ErrDisabled sentinel; the result does not depend on the
random source or on any server interaction, no statement is issued and
no close is attempted. -/
theorem disabled_short_circuit (env : String)
    (randRead : Nat → Except String (List Nat)) (w : NewWorld)
    (h : env ≠ "") :
    New env randRead w = .ok ⟨none, some ErrDisabled, [], false⟩ := by
  simp [New, PgTestDisable, h]

/-- Witness for claim C7 at a concrete environment value. -/
theorem disabled_short_circuit_witness :
    New "1" (fun _ => .error "never queried")
      ⟨some (.base "unreachable"), .never, .never⟩ =
      .ok ⟨none, some ErrDisabled, [], false⟩ :=
  disabled_short_circuit "1" (fun _ => .error "never queried")
    ⟨some (.base "unreachable"), .never, .never⟩ (by decide)

/-- Claim C10: New returns exactly one of a handle and an error — a
non-nil error comes with a nil handle, and a nil error comes with a
handle whose connection is non-nil and whose schema string is the
identifier of the issued CREATE SCHEMA statement, the same string
Schema returns. -/
theorem New_handle_error_dichotomy (env : String)
    (randRead : Nat → Except String (List Nat)) (w : NewWorld) (ret : NewRet)
    (h : New env randRead w = .ok ret) :
    (ret.err ≠ none → ret.db = none) ∧
    (ret.err = none → ∃ d, ret.db = some d ∧ d.conn ≠ none ∧
      ret.stmts = ["CREATE SCHEMA " ++ d.schema] ∧ d.Schema = d.schema) := by
  unfold New at h
  split at h
  · cases h
    exact ⟨fun _ => rfl, fun he => by simp [ErrDisabled] at he⟩
  · split at h
    · cases h
    · split at h
      · cases h
        exact ⟨fun _ => rfl, fun he => by simp at he⟩
      · split at h
        · cases h
          exact ⟨fun hne => absurd rfl hne,
            fun _ => ⟨_, rfl, by simp, rfl, rfl⟩⟩
        · split at h
          · cases h
            exact ⟨fun _ => rfl, fun he => by simp at he⟩
          · cases h
            exact ⟨fun _ => rfl, fun he => by simp at he⟩

/-- Witness for claim C10 on a fully successful creation run. -/
theorem New_handle_error_dichotomy_witness :
    ∃ d, (⟨some ⟨some "search_path=go_test_0000000000000000",
        "go_test_0000000000000000"⟩, none,
        ["CREATE SCHEMA go_test_0000000000000000"], false⟩ : NewRet).db = some d ∧
      d.conn ≠ none ∧
      (["CREATE SCHEMA go_test_0000000000000000"] : List String) =
        ["CREATE SCHEMA " ++ d.schema] ∧ d.Schema = d.schema :=
  (New_handle_error_dichotomy "" (fun _ => .ok [0, 0, 0, 0, 0, 0, 0, 0])
    ⟨none, .after 0 none, .after 0 none⟩ _ rfl).2 rfl

/-- Claim C6: when the cascading-drop wrapper reports an error during
teardown, Close returns exactly that error, does not invoke the
connection close, and leaves every field of the receiver unchanged (in
particular the connection stays non-nil). -/
theorem close_drop_failure_frame (pg : DB) (w : CloseWorld) (e : GoError)
    (hconn : pg.conn ≠ none) (hkeep : w.envPGTESTKEEPDB = "")
    (hdrop : runWithTimeout w.dropTiming (fun execErr => execErr) defaultTimeout
      ("drop test schema " ++ pg.schema) = some e) :
    DB.Close pg w =
      ⟨pg, some e, ["DROP SCHEMA " ++ goQuote pg.schema ++ " CASCADE;"],
        [], false⟩ := by
  cases hc : pg.conn with
  | none => exact absurd hc hconn
  | some c => simp [DB.Close, hc, hkeep, hdrop]

/-- Witness for claim C6: a drop statement failing immediately on a
held lock. -/
theorem close_drop_failure_frame_witness :
    DB.Close ⟨some "search_path=go_test_aa", "go_test_aa"⟩
      ⟨"", .after 0 (some (.base "locked")), .after 0 none⟩ =
      ⟨⟨some "search_path=go_test_aa", "go_test_aa"⟩,
        some (.notef (.base "locked") "cannot drop test schema go_test_aa"),
        ["DROP SCHEMA \"go_test_aa\" CASCADE;"], [], false⟩ :=
  close_drop_failure_frame ⟨some "search_path=go_test_aa", "go_test_aa"⟩
    ⟨"", .after 0 (some (.base "locked")), .after 0 none⟩
    (.notef (.base "locked") "cannot drop test schema go_test_aa")
    (by simp) rfl (by decide)

/-- Counterexample to claim C2 at a concrete handle: a fully successful
first Close returns success but leaves the connection field non-nil (it
is never nulled), so a second Close on the same handle issues a second
DROP statement and, the schema being gone, returns an error rather than
success. -/
theorem close_not_idempotent_cex :
    (DB.Close ⟨some "search_path=go_test_aa", "go_test_aa"⟩
        ⟨"", .after 0 none, .after 0 none⟩).err = none ∧
    (DB.Close ⟨some "search_path=go_test_aa", "go_test_aa"⟩
        ⟨"", .after 0 none, .after 0 none⟩).db.conn =
      some "search_path=go_test_aa" ∧
    (DB.Close (DB.Close ⟨some "search_path=go_test_aa", "go_test_aa"⟩
        ⟨"", .after 0 none, .after 0 none⟩).db
        ⟨"", .after 0 (some (.base "schema go_test_aa does not exist")),
          .after 0 none⟩).stmts = ["DROP SCHEMA \"go_test_aa\" CASCADE;"] ∧
    (DB.Close (DB.Close ⟨some "search_path=go_test_aa", "go_test_aa"⟩
        ⟨"", .after 0 none, .after 0 none⟩).db
        ⟨"", .after 0 (some (.base "schema go_test_aa does not exist")),
          .after 0 none⟩).err ≠ none := by
  decide

/-- Claim C2 as amended: a Close on a handle whose connection field is
nil is an immediate successful no-op, but Close never changes the
receiver — in particular a fully successful Close does not null the
connection field, and a second Close after a successful one issues the
drop statement again. -/
theorem close_nil_guard_no_nulling :
    (∀ (pg : DB) (w : CloseWorld), pg.conn = none →
        DB.Close pg w = ⟨pg, none, [], [], false⟩) ∧
    (∀ (pg : DB) (w : CloseWorld), (DB.Close pg w).db = pg) ∧
    (∀ (pg : DB) (w w2 : CloseWorld), pg.conn ≠ none →
        w2.envPGTESTKEEPDB = "" →
        ("DROP SCHEMA " ++ goQuote pg.schema ++ " CASCADE;") ∈
          (DB.Close (DB.Close pg w).db w2).stmts) := by
  have hdb : ∀ (pg : DB) (w : CloseWorld), (DB.Close pg w).db = pg := by
    intro pg w
    cases hc : pg.conn with
    | none => simp [DB.Close, hc]
    | some c =>
      simp only [DB.Close, hc]
      split
      · rfl
      · split
        · rfl
        · split <;> rfl
  refine ⟨?_, hdb, ?_⟩
  · intro pg w hc
    simp [DB.Close, hc]
  · intro pg w w2 hconn hkeep
    rw [hdb pg w]
    cases hc : pg.conn with
    | none => exact absurd hc hconn
    | some c =>
      simp only [DB.Close, hc, hkeep]
      split
      · simp_all
      · split
        · simp
        · split <;> simp

/-- Witness for amended claim C2: the nil-guard no-op at a concrete
already-cleared handle, and the second drop attempt after a successful
Close at a concrete live handle. -/
theorem close_nil_guard_no_nulling_witness :
    DB.Close ⟨none, "go_test_aa"⟩ ⟨"", .never, .never⟩ =
      ⟨⟨none, "go_test_aa"⟩, none, [], [], false⟩ ∧
    ("DROP SCHEMA \"go_test_aa\" CASCADE;") ∈
      (DB.Close (DB.Close ⟨some "search_path=go_test_aa", "go_test_aa"⟩
          ⟨"", .after 0 none, .after 0 none⟩).db
        ⟨"", .after 0 none, .after 0 none⟩).stmts :=
  ⟨close_nil_guard_no_nulling.1 ⟨none, "go_test_aa"⟩ ⟨"", .never, .never⟩ rfl,
    close_nil_guard_no_nulling.2.2 ⟨some "search_path=go_test_aa", "go_test_aa"⟩
      ⟨"", .after 0 none, .after 0 none⟩ ⟨"", .after 0 none, .after 0 none⟩
      (by simp) rfl⟩

/-- Counterexample to claim C4 at a concrete handle: the retention path
prints three lines to stderr, not two. -/
theorem keepdb_line_count_cex :
    (DB.Close ⟨some "search_path=go_test_aa", "go_test_aa"⟩
        ⟨"1", .never, .never⟩).stderr.length = 3 ∧
    (DB.Close ⟨some "search_path=go_test_aa", "go_test_aa"⟩
        ⟨"1", .never, .never⟩).stderr.length ≠ 2 := by
  decide

/-- Claim C4 as amended: with the keep-database variable non-empty at
call time, Close on a live handle returns success without issuing any
statement and without closing the connection, leaving the handle
unchanged, and prints three lines to stderr: a label line with the
namespace identifier, a tab-indented SET search_path statement, and the
tab-indented cascading DROP statement a human can run later. -/
theorem close_keepdb_retention (pg : DB) (w : CloseWorld)
    (hconn : pg.conn ≠ none) (hkeep : w.envPGTESTKEEPDB ≠ "") :
    DB.Close pg w = ⟨pg, none, [],
      ["postgrestest schema: " ++ pg.schema,
       "\tSET search_path TO " ++ goQuote pg.schema ++ ";",
       "\tDROP SCHEMA " ++ goQuote pg.schema ++ " CASCADE;"], false⟩ := by
  cases hc : pg.conn with
  | none => exact absurd hc hconn
  | some c => simp [DB.Close, hc, bne_iff_ne, hkeep]

/-- Witness for amended claim C4 at a concrete handle and environment. -/
theorem close_keepdb_retention_witness :
    DB.Close ⟨some "search_path=go_test_aa", "go_test_aa"⟩
      ⟨"1", .never, .never⟩ =
      ⟨⟨some "search_path=go_test_aa", "go_test_aa"⟩, none, [],
        ["postgrestest schema: go_test_aa",
         "\tSET search_path TO \"go_test_aa\";",
         "\tDROP SCHEMA \"go_test_aa\" CASCADE;"], false⟩ :=
  close_keepdb_retention ⟨some "search_path=go_test_aa", "go_test_aa"⟩
    ⟨"1", .never, .never⟩ (by simp) (by decide)

/-- Counterexample to claim C5 at a concrete run: the creation DDL the
code issues is CREATE SCHEMA go_test_0000000000000000 with the
identifier unquoted; the double-quoted form the claim states is not
among the issued statements. -/
theorem create_ddl_unquoted_cex :
    newStmts "" (fun _ => .ok [0, 0, 0, 0, 0, 0, 0, 0])
        ⟨none, .after 0 none, .after 0 none⟩ =
      ["CREATE SCHEMA go_test_0000000000000000"] ∧
    "CREATE SCHEMA \"go_test_0000000000000000\"" ∉
      newStmts "" (fun _ => .ok [0, 0, 0, 0, 0, 0, 0, 0])
        ⟨none, .after 0 none, .after 0 none⟩ := by
  decide

/-- Claim C5 as amended: every run of New issues at most the single
statement CREATE SCHEMA followed by the unquoted namespace identifier,
and every run of Close issues at most the single statement DROP SCHEMA
followed by the double-quoted identifier, CASCADE and a trailing
semicolon; only the drop statement quotes the identifier. -/
theorem ddl_statement_shapes :
    (∀ (env : String) (r : Nat → Except String (List Nat)) (w : NewWorld)
        (ret : NewRet), New env r w = .ok ret →
        ret.stmts = [] ∨ ∃ name, randomSchemaName r = .ok name ∧
          ret.stmts = ["CREATE SCHEMA " ++ name]) ∧
    (∀ (pg : DB) (cw : CloseWorld), (DB.Close pg cw).stmts = [] ∨
        (DB.Close pg cw).stmts =
          ["DROP SCHEMA " ++ goQuote pg.schema ++ " CASCADE;"]) := by
  constructor
  · intro env r w ret h
    unfold New at h
    split at h
    · cases h; left; rfl
    · split at h
      · cases h
      · rename_i name hrs
        split at h
        · cases h; left; rfl
        · right
          refine ⟨name, hrs, ?_⟩
          split at h
          · cases h; rfl
          · split at h
            · cases h; rfl
            · cases h; rfl
  · intro pg cw
    cases hc : pg.conn with
    | none => left; simp [DB.Close, hc]
    | some c =>
      simp only [DB.Close, hc]
      split
      · left; rfl
      · split
        · right; rfl
        · split
          · right; rfl
          · right; rfl

/-- Witness for amended claim C5 on a concrete successful creation. -/
theorem ddl_statement_shapes_witness :
    (["CREATE SCHEMA go_test_0000000000000000"] : List String) = [] ∨
      ∃ name, randomSchemaName (fun _ => .ok [0, 0, 0, 0, 0, 0, 0, 0]) =
          .ok name ∧
        (["CREATE SCHEMA go_test_0000000000000000"] : List String) =
          ["CREATE SCHEMA " ++ name] :=
  ddl_statement_shapes.1 "" (fun _ => .ok [0, 0, 0, 0, 0, 0, 0, 0])
    ⟨none, .after 0 none, .after 0 none⟩
    ⟨some ⟨some "search_path=go_test_0000000000000000",
      "go_test_0000000000000000"⟩, none,
      ["CREATE SCHEMA go_test_0000000000000000"], false⟩ rfl

/-- Claim C1 evaluated at its failing input: the creation DDL fails with
an underlying error create boom and db.Close then fails with close boom
within the timeout. The source cleanup closure runs db.Close() but sends
the outer creation error on the done channel (done <- err, line 83),
discarding the close result, so the close-succeeded branch at line 88 is
unreachable and the returned error is always the creation error wrapped
with the close-wrapper context and then the create context; the close
error close boom appears nowhere in the returned chain, and the result
is identical whether db.Close fails or succeeds. No handle is
returned. -/
theorem create_failure_close_error_discarded :
    New "" (fun _ => .ok [0, 0, 0, 0, 0, 0, 0, 0])
        ⟨none, .after 0 (some (.base "create boom")),
          .after 0 (some (.base "close boom"))⟩ =
      .ok ⟨none, some (.notef (.notef (.notef (.base "create boom")
            "cannot create schema")
            "cannot close test db after failing to create schema")
          "cannot create test database \"go_test_0000000000000000\""),
        ["CREATE SCHEMA go_test_0000000000000000"], true⟩ ∧
    New "" (fun _ => .ok [0, 0, 0, 0, 0, 0, 0, 0])
        ⟨none, .after 0 (some (.base "create boom")), .after 0 none⟩ =
      .ok ⟨none, some (.notef (.notef (.notef (.base "create boom")
            "cannot create schema")
            "cannot close test db after failing to create schema")
          "cannot create test database \"go_test_0000000000000000\""),
        ["CREATE SCHEMA go_test_0000000000000000"], true⟩ ∧
    newErrMentions "" (fun _ => .ok [0, 0, 0, 0, 0, 0, 0, 0])
        ⟨none, .after 0 (some (.base "create boom")),
          .after 0 (some (.base "close boom"))⟩ "close boom" = false ∧
    newErrMentions "" (fun _ => .ok [0, 0, 0, 0, 0, 0, 0, 0])
        ⟨none, .after 0 (some (.base "create boom")),
          .after 0 (some (.base "close boom"))⟩ "create boom" = true := by
  refine ⟨rfl, rfl, by decide, by decide⟩

end Postgrestest
